import Mathlib

/-!
Verification development for the Remote Rebooter dashboard's telemetry
engine: a shallow embedding of the MQTT message handling pipeline
(`src/hooks/useMqttManager.ts`) and the history event sink
(`src/App.tsx`), with theorems about the normalization, classification,
reducer, watchdog, connection-reconciliation and history-deduplication
behaviour.

Strings are modelled as `List Char` (`Str`); JavaScript `Date` values are
modelled as milliseconds since epoch (`Int`); the wall clock
(`Date.now()` / `new Date()`) is passed explicitly as a `now : Int`
argument.  `JSON.parse` and `Date.parse` are library primitives of the
host platform, so they enter the model as explicit function arguments
(`jsonParse`, `dateParse`); a failed/throwing parse is `none`.  The
regular-expression character class `\s` is modelled by its ASCII
subset, and `Number()` / `parseInt` by their integer fragments, which
cover every payload the program's own documentation and the spec discuss.
-/

namespace Rebooter

abbrev Str := List Char

/-- Characters removed by the handler's control-character strip
`replace([the \x00-\x1F\x7F-\x9F class], "")` (useMqttManager.ts line 144). -/
def isControlChar (c : Char) : Bool :=
  c.toNat ≤ 0x1F || (0x7F ≤ c.toNat && c.toNat ≤ 0x9F)

/-- ASCII model of the regex whitespace class and of characters trimmed
by JavaScript's trim. -/
def isJsWhitespace (c : Char) : Bool :=
  c = ' ' || c = '\t' || c = '\n' || c = '\x0d' || c = '\x0b' || c = '\x0c'

/-- The separator class used at lines 165 and 204: pipe, colon, hyphen, whitespace. -/
def isSepChar (c : Char) : Bool :=
  c = '|' || c = ':' || c = '-' || isJsWhitespace c

def isDigitChar (c : Char) : Bool := '0' ≤ c && c ≤ '9'

/-- JavaScript String.prototype.trim. -/
def trimStr (s : Str) : Str :=
  ((s.dropWhile isJsWhitespace).reverse.dropWhile isJsWhitespace).reverse

/-- Strip one leading and one trailing double quote (line 144). -/
def stripQuotes (s : Str) : Str :=
  let s1 := match s with
    | '"' :: rest => rest
    | _ => s
  if s1.getLast? == some '"' then s1.dropLast else s1

/-- Remove a trailing run of separator characters (the anchored-at-end
separator regex at line 165). -/
def stripTrailingSep (s : Str) : Str :=
  (s.reverse.dropWhile isSepChar).reverse

/-- Remove leading and trailing separator runs (line 204). -/
def stripBothSep (s : Str) : Str :=
  ((s.dropWhile isSepChar).reverse.dropWhile isSepChar).reverse

def toLowerStr (s : Str) : Str := s.map Char.toLower

/-- JavaScript String.prototype.includes as substring search. -/
def containsSub : Str → Str → Bool
  | s, sub =>
    match s with
    | [] => sub.isEmpty
    | _ :: cs => sub.isPrefixOf s || containsSub cs sub

def endsWithStr (s suffix : Str) : Bool := suffix.isSuffixOf s

/-- First occurrence replacement by the empty string: JavaScript
`replace(tsString, "")` with a plain-string pattern (line 165). -/
def replaceFirst : Str → Str → Str
  | [], _ => []
  | c :: cs, sub =>
    if sub.isPrefixOf (c :: cs) then (c :: cs).drop sub.length
    else c :: replaceFirst cs sub

def digitsToNat (s : Str) : Nat :=
  s.foldl (fun n c => n * 10 + (c.toNat - 48)) 0

/-- Maximal runs of consecutive decimal digits, in left-to-right order. -/
def digitRuns (s : Str) : List Str :=
  let p := s.foldr
    (fun c acc =>
      if isDigitChar c then (c :: acc.1, acc.2)
      else ([], if acc.1.isEmpty then acc.2 else acc.1 :: acc.2))
    (([], []) : Str × List Str)
  if p.1.isEmpty then p.2 else p.1 :: p.2

/-- The matches the global 10-to-14-digit regex (line 156) produces inside one
maximal digit run: repeatedly take a greedy match of up to 14 digits while at
least 10 digits remain.  Fuel-driven so the kernel can evaluate it; the run's
own length is always enough fuel. -/
def chunkRunAux : Nat → Str → List Str
  | 0, _ => []
  | fuel + 1, run =>
    if run.length < 10 then []
    else run.take 14 :: chunkRunAux fuel (run.drop 14)

def chunkRun (run : Str) : List Str := chunkRunAux run.length run

/-- All matches of the global 10-to-14-digit regex over the cleaned payload. -/
def allDigitMatches (s : Str) : List Str :=
  (digitRuns s).flatMap chunkRun

/-- Integer fragment of JavaScript Number() on a string: trims whitespace,
empty maps to 0, otherwise an optionally signed all-digit string; anything
else is NaN (`none`). -/
def strToNumber (s : Str) : Option Int :=
  let t := trimStr s
  match t with
  | [] => some 0
  | '-' :: ds => if !ds.isEmpty && ds.all isDigitChar then some (-(digitsToNat ds : Int)) else none
  | '+' :: ds => if !ds.isEmpty && ds.all isDigitChar then some (digitsToNat ds : Int) else none
  | ds => if ds.all isDigitChar then some (digitsToNat ds : Int) else none

/-- Integer fragment of JavaScript parseInt(s, 10): trim leading whitespace,
optional sign, then the leading digit run; NaN (`none`) when no digits. -/
def jsParseInt (s : Str) : Option Int :=
  let t := s.dropWhile isJsWhitespace
  match t with
  | '-' :: ds =>
    let run := ds.takeWhile isDigitChar
    if run.isEmpty then none else some (-(digitsToNat run : Int))
  | '+' :: ds =>
    let run := ds.takeWhile isDigitChar
    if run.isEmpty then none else some (digitsToNat run : Int)
  | ds =>
    let run := ds.takeWhile isDigitChar
    if run.isEmpty then none else some (digitsToNat run : Int)

/-- A JSON leaf value as far as the handler inspects one: a number or a
string (the timestamp/uptime fields it reads). -/
inductive JsonVal where
  | num (n : Int)
  | str (s : Str)
deriving DecidableEq

/-- JavaScript truthiness of the modelled JSON values. -/
def JsonVal.truthy : JsonVal → Bool
  | .num n => n != 0
  | .str s => !s.isEmpty

/-- Number(v) on a modelled JSON value. -/
def jsNumber : JsonVal → Option Int
  | .num n => some n
  | .str s => strToNumber s

/-- The fields of a parsed JSON payload that the handler reads
(lines 171-183).  Absent fields are `none`.  The payload-text fields
`status`/`action`/`msg` are modelled as strings, the shape the handler's
later string operations require. -/
structure JsonLite where
  ts : Option JsonVal := none
  timestamp : Option JsonVal := none
  time : Option JsonVal := none
  last_seen : Option JsonVal := none
  boot_time : Option JsonVal := none
  last_reset : Option JsonVal := none
  last_reboot : Option JsonVal := none
  uptime : Option JsonVal := none
  status : Option Str := none
  action : Option Str := none
  msg : Option Str := none
deriving DecidableEq

/-- JavaScript `a || b` over optional JSON values: keep `a` when it is
present and truthy. -/
def orTruthy (a : Option JsonVal) (b : Option JsonVal) : Option JsonVal :=
  match a with
  | some v => if v.truthy then some v else b
  | none => b

/-- `json.ts || json.timestamp || json.time || json.last_seen ||
json.boot_time || json.last_reset || json.last_reboot` (line 173). -/
def selectJsonTs (j : JsonLite) : Option JsonVal :=
  orTruthy j.ts (orTruthy j.timestamp (orTruthy j.time (orTruthy j.last_seen
    (orTruthy j.boot_time (orTruthy j.last_reset j.last_reboot)))))

/-- `isNaN(Number(ts)) ? Date.parse(ts) : Number(ts)` (line 174);
`none` models NaN. -/
def jsonTsValue (dateParse : Str → Option Int) : JsonVal → Option Int
  | .num n => some n
  | .str s =>
    match strToNumber s with
    | some n => some n
    | none => dateParse s

/-- `if (json.status) payloadStr = json.status; else if (json.action) ...;
else if (json.msg) ...` (lines 180-182). -/
def orStr (a : Option Str) (b : Str) : Str :=
  match a with
  | some s => if s.isEmpty then b else s
  | none => b

def jsonPayloadStr (j : JsonLite) (dflt : Str) : Str :=
  orStr j.status (orStr j.action (orStr j.msg dflt))

/-- Result of the normalization stage (lines 142-204 before time-object
creation): the cleaned payload, the numeric timestamp candidate (`none`
models both null and NaN), the uptime candidate, and the keyword-matching
payload. -/
structure NormResult where
  cleanString : Str
  timestampVal : Option Int
  uptimeVal : Option Int
  payloadStr : Str
  payload : Str
deriving DecidableEq

/-- The message-normalization stage of the handler (lines 142-204):
control-character strip, quote strip, trim; aggressive 10-to-14-digit
timestamp extraction taking the last match and deleting its first
occurrence from the text; JSON fallback for brace-delimited payloads;
separator strip and lower-casing of the remaining text. -/
def normalizeMessage (jsonParse : Str → Option JsonLite) (dateParse : Str → Option Int)
    (raw : Str) : NormResult :=
  let cleanString := trimStr (stripQuotes (raw.filter (fun c => !isControlChar c)))
  let found := allDigitMatches cleanString
  let tp0 : Option Int × Str :=
    match found.getLast? with
    | some tsString =>
      (some (digitsToNat tsString : Int),
       trimStr (stripTrailingSep (replaceFirst cleanString tsString)))
    | none => (none, cleanString)
  let tup :=
    if cleanString.head? == some '{' && cleanString.getLast? == some '}' then
      match jsonParse cleanString with
      | some j =>
        let tv :=
          match selectJsonTs j with
          | some v => if v.truthy then jsonTsValue dateParse v else tp0.1
          | none => tp0.1
        let uv :=
          match j.uptime with
          | some v =>
            if v.truthy then
              match jsNumber v with
              | some n => some n
              | none => none
            else none
          | none => none
        (tv, uv, jsonPayloadStr j tp0.2)
      | none => (tp0.1, none, tp0.2)
    else (tp0.1, none, tp0.2)
  { cleanString := cleanString
    timestampVal := tup.1
    uptimeVal := tup.2.1
    payloadStr := tup.2.2
    payload := toLowerStr (stripBothSep tup.2.2) }

/-- Time-object creation (lines 186-201): seconds-vs-milliseconds
disambiguation at the year-2000 cutoff, the uptime-derived fallback, and
the wall-clock fallback for non-retained messages. -/
def computeEventTime (tv uv : Option Int) (retained : Bool) (now : Int) : Option Int :=
  match tv with
  | some v => some (if v > 946684800000 then v else v * 1000)
  | none =>
    match uv with
    | some u => some (now - u * 1000)
    | none => if retained then none else some now

/-- The `jsonParse` stand-in for payloads that are not JSON objects (and
for a JSON.parse call that throws). -/
def jpNone : Str → Option JsonLite := fun _ => none

/-- The `dateParse` stand-in for strings Date.parse rejects. -/
def dpNone : Str → Option Int := fun _ => none

/-- Topic and payload analysis plus action detection (lines 206-242). -/
structure ClassifyResult where
  isHeartbeatTopic : Bool
  isResetTopic : Bool
  hasResetDone : Bool
  hasResetting : Bool
  hasOnline : Bool
  isOnlineSignal : Bool
  detectedActionType : Str
  detectedEventType : Str
  isRebootEvent : Bool
  isPowerEvent : Bool
  poweredOffState : Bool
deriving DecidableEq

def classifyMessage (topic payload : Str) : ClassifyResult :=
  let isHeartbeatTopic := endsWithStr topic "/online".data ||
    endsWithStr topic "/heartbeat".data || endsWithStr topic "/status".data
  let isResetTopic := endsWithStr topic "/last_reset".data ||
    endsWithStr topic "/last_reboot".data
  let hasResetDone := containsSub payload "reset_done".data ||
    containsSub payload "boot".data || containsSub payload "start".data ||
    (containsSub payload "reset".data && containsSub payload "done".data)
  let hasResetting := containsSub payload "resetting".data
  let hasOnline := payload == "online".data || payload == "1".data ||
    payload == "true".data || payload == "on".data ||
    payload == "connected".data || payload == "idle".data
  let isOnlineSignal := hasOnline || hasResetDone || hasResetting
  let acts : Str × Str × Bool × Bool × Bool :=
    if isResetTopic || hasResetDone || hasResetting ||
        containsSub payload "reset_manual".data ||
        containsSub payload "reset_schedule".data ||
        containsSub payload "reboot".data then
      ("Reboot".data,
       if hasResetDone then "Reboot Completed".data else "Rebooting".data,
       true, false, false)
    else if payload == "power_off".data || payload == "turn_off".data ||
        payload == "off".data || payload == "0".data then
      ("Power Off".data, "Powered off".data, false, true, true)
    else if containsSub payload "power_on".data || containsSub payload "turn_on".data then
      ("Power On".data, "Powered ON".data, false, true, false)
    else ([], [], false, false, false)
  { isHeartbeatTopic := isHeartbeatTopic
    isResetTopic := isResetTopic
    hasResetDone := hasResetDone
    hasResetting := hasResetting
    hasOnline := hasOnline
    isOnlineSignal := isOnlineSignal
    detectedActionType := acts.1
    detectedEventType := acts.2.1
    isRebootEvent := acts.2.2.1
    isPowerEvent := acts.2.2.2.1
    poweredOffState := acts.2.2.2.2 }

inductive MqttStatus where
  | online
  | offline
  | connecting
  | error
  | resetting
deriving DecidableEq

/-- The canonical per-device state (DeviceMqttState, lines 16-28).
Timestamps are milliseconds since epoch; `errorMessage` carries literal
UI strings and is kept as a Lean `String`; the payload-derived text
fields are `Str`. -/
structure DeviceMqttState where
  status : MqttStatus
  errorMessage : Option String := none
  lastSeen : Option Int := none
  healthStatus : Option Str := none
  otaStatus : Option Str := none
  otaProgress : Option Int := none
  deviceVersion : Option Str := none
  ping : Option Int := none
  isPoweredOff : Option Bool := none
  lastAction : Option Str := none
  lastActionTime : Option Int := none
deriving DecidableEq

/-- A `Partial DeviceMqttState` update: an outer `none` is an absent key
(field untouched by the merge); fields the code can explicitly set to
null are doubly optional, with `some none` the present-null value. -/
structure StatusUpdate where
  status : Option MqttStatus := none
  errorMessage : Option (Option String) := none
  lastSeen : Option Int := none
  healthStatus : Option (Option Str) := none
  otaStatus : Option Str := none
  otaProgress : Option Int := none
  deviceVersion : Option Str := none
  ping : Option (Option Int) := none
  isPoweredOff : Option Bool := none
  lastAction : Option Str := none
  lastActionTime : Option Int := none
deriving DecidableEq

/-- The spread merge `{...prev, ...newStatus}` (lines 69-72). -/
def mergeState (prev : DeviceMqttState) (u : StatusUpdate) : DeviceMqttState :=
  { status := u.status.getD prev.status
    errorMessage := u.errorMessage.getD prev.errorMessage
    lastSeen := match u.lastSeen with | some t => some t | none => prev.lastSeen
    healthStatus := u.healthStatus.getD prev.healthStatus
    otaStatus := match u.otaStatus with | some s => some s | none => prev.otaStatus
    otaProgress := match u.otaProgress with | some p => some p | none => prev.otaProgress
    deviceVersion := match u.deviceVersion with | some v => some v | none => prev.deviceVersion
    ping := u.ping.getD prev.ping
    isPoweredOff := match u.isPoweredOff with | some b => some b | none => prev.isPoweredOff
    lastAction := match u.lastAction with | some a => some a | none => prev.lastAction
    lastActionTime := match u.lastActionTime with | some t => some t | none => prev.lastActionTime }

/-- The seed state merged under when no entry exists yet (line 70). -/
def defaultDeviceState : DeviceMqttState :=
  { status := .connecting, errorMessage := none, lastSeen := none,
    ping := none, isPoweredOff := none, lastAction := none, lastActionTime := none }

/-- setDeviceStatus (lines 66-74): merge the partial update over the
existing entry (or the seed state) for one device id, leaving every other
device's entry untouched. -/
def setDeviceStatus (st : String → Option DeviceMqttState) (deviceId : String)
    (u : StatusUpdate) : String → Option DeviceMqttState :=
  fun id => if id = deviceId then some (mergeState ((st deviceId).getD defaultDeviceState) u) else st id

/-- Callback invocations the message handler can make, in call order:
onDeviceSeen, onDeviceEvent, onDeviceAction, onSchedulesCleared. -/
inductive Emit where
  | seen (time : Int)
  | event (label : Str) (time : Int)
  | action (act : Str) (time : Int)
  | schedulesCleared
deriving DecidableEq

/-- Watchdog registry commands a message issues (startWatchdog /
stopWatchdog calls inside the handler). -/
inductive WdCmd where
  | start
  | stop
deriving DecidableEq

/-- The topic-specific reducer (lines 245-299): health ping, OTA status
and progress, version, and the heartbeat-class liveness/offline handling
including the schedules-cleared notification. -/
def reduceTopicPhase (topic raw : Str) (retained : Bool) (now : Int)
    (payload : Str) (et : Option Int) (c : ClassifyResult) :
    StatusUpdate × List Emit × Option WdCmd :=
  if endsWithStr topic "/health/status".data && !retained then
    ({ ping := match (digitRuns raw).head? with
        | some ds => some (some (digitsToNat ds : Int))
        | none => none
       healthStatus := some (some raw)
       status := some .online
       errorMessage := some none
       lastSeen := some now },
     [Emit.seen now], some .start)
  else if endsWithStr topic "/ota/status".data then
    ({ otaStatus := some raw }, [], none)
  else if endsWithStr topic "/ota/progress".data then
    (match jsParseInt raw with
     | some p => { otaProgress := some p }
     | none => {},
     [], none)
  else if endsWithStr topic "/version".data then
    ({ deviceVersion := some raw }, [], none)
  else if c.isHeartbeatTopic then
    let tri : StatusUpdate × List Emit × Option WdCmd :=
      if c.isOnlineSignal || c.isRebootEvent then
        let base : StatusUpdate :=
          { status := some (if c.hasResetting then .resetting else .online)
            errorMessage := some none }
        match et with
        | some t => ({ base with lastSeen := some t }, [Emit.seen t], some .start)
        | none => (base, [], some .start)
      else if containsSub payload "offline".data || payload == "disconnected".data then
        let base : StatusUpdate :=
          { status := some .offline
            errorMessage := some (some "Device disconnected.")
            ping := some none }
        match et with
        | some t => ({ base with lastSeen := some t }, [Emit.seen t], some .stop)
        | none => (base, [], some .stop)
      else ({}, [], none)
    let sched : List Emit :=
      if endsWithStr topic "/status".data && containsSub payload "schedules_cleared".data then
        [Emit.schedulesCleared]
      else []
    (tri.1, tri.2.1 ++ sched, tri.2.2)
  else ({}, [], none)

/-- The apply-detected-actions block (lines 302-324): when an action was
detected and an event time exists, emit the event and action callbacks,
set lastAction/lastActionTime, refresh lastSeen for heartbeat-topic
reboots, and set isPoweredOff for power actions. -/
def applyActions (c : ClassifyResult) (et : Option Int)
    (x : StatusUpdate × List Emit × Option WdCmd) :
    StatusUpdate × List Emit × Option WdCmd :=
  if !c.detectedActionType.isEmpty then
    match et with
    | some t =>
      let ua : StatusUpdate :=
        { x.1 with lastAction := some c.detectedActionType, lastActionTime := some t }
      let ub := if c.isRebootEvent && c.isHeartbeatTopic then { ua with lastSeen := some t } else ua
      let uc := if c.isPowerEvent then { ub with isPoweredOff := some c.poweredOffState } else ub
      let eb := if c.isRebootEvent && c.isHeartbeatTopic then [Emit.seen t] else []
      (uc, x.2.1 ++ ([Emit.event c.detectedEventType t, Emit.action c.detectedActionType t] ++ eb),
       x.2.2)
    | none => x
  else x

/-- Everything the message handler computes for one inbound message. -/
structure HandlerResult where
  norm : NormResult
  eventTime : Option Int
  cls : ClassifyResult
  statusUpdate : StatusUpdate
  emits : List Emit
  wdCmd : Option WdCmd
deriving DecidableEq

/-- The full per-message handler (`client.on(the message event, ...)`,
lines 141-330) as a pure function of the topic, the raw payload, the
retained flag and the receipt wall-clock time. -/
def handleMessage (jsonParse : Str → Option JsonLite) (dateParse : Str → Option Int)
    (topic raw : Str) (retained : Bool) (now : Int) : HandlerResult :=
  let nr := normalizeMessage jsonParse dateParse raw
  let et := computeEventTime nr.timestampVal nr.uptimeVal retained now
  let c := classifyMessage topic nr.payload
  let rw := applyActions c et (reduceTopicPhase topic raw retained now nr.payload et c)
  { norm := nr
    eventTime := et
    cls := c
    statusUpdate := rw.1
    emits := rw.2.1
    wdCmd := rw.2.2 }

/-- The fields of a configured device that the connection and history
layers read (types.ts, DeviceCredentials plus custom_name). -/
structure Device where
  device_id : String
  broker : String
  port : Int
  user : String
  pass : String
  pair_token : String
  custom_name : String
deriving DecidableEq

/-- A history log entry (types.ts, ResetHistoryEntry).  `timestamp` and
`id` hold the ISO-8601 rendering of the event time, modelled as the
opaque string `timestamp.toISOString()` produced. -/
structure ResetHistoryEntry where
  id : String
  deviceId : String
  deviceName : String
  timestamp : String
  eventType : String
deriving DecidableEq

/-- The identity tuple the dedup check compares (App.tsx lines 49-53). -/
def histTuple (e : ResetHistoryEntry) : String × String × String :=
  (e.deviceId, e.timestamp, e.eventType)

def matchesTuple (deviceId isoTimestamp eventType : String) (e : ResetHistoryEntry) : Bool :=
  e.deviceId == deviceId && e.timestamp == isoTimestamp && e.eventType == eventType

/-- The entry built at App.tsx lines 62-69. -/
def mkHistEntry (devices : List Device) (deviceId eventType isoTimestamp : String) :
    ResetHistoryEntry :=
  let deviceName :=
    match devices.find? (fun d => d.device_id == deviceId) with
    | some d => d.custom_name
    | none => deviceId
  { id := isoTimestamp ++ deviceId
    deviceId := deviceId
    deviceName := deviceName
    timestamp := isoTimestamp
    eventType := eventType }

/-- handleDeviceEvent (App.tsx lines 44-71): drop the notification when
an entry with the same (deviceId, timestamp, eventType) tuple exists,
otherwise prepend a new entry and keep the first 100. -/
def handleDeviceEvent (devices : List Device) (hist : List ResetHistoryEntry)
    (deviceId eventType isoTimestamp : String) : List ResetHistoryEntry :=
  if hist.any (matchesTuple deviceId isoTimestamp eventType) then hist
  else (mkHistEntry devices deviceId eventType isoTimestamp :: hist).take 100

/-- One event notification delivered to the history sink. -/
structure HistEv where
  deviceId : String
  eventType : String
  isoTimestamp : String
deriving DecidableEq

/-- The history log resulting from a sequence of event notifications,
starting from the empty log. -/
def runHistory (devices : List Device) (evs : List HistEv) : List ResetHistoryEntry :=
  evs.foldl (fun h ev => handleDeviceEvent devices h ev.deviceId ev.eventType ev.isoTimestamp) []

/-- One per-device transport client as the supervisor sees it:
the connection parameters it was opened with and the mqtt client's
`connected` flag. -/
structure ClientInfo where
  broker : String
  user : String
  pass : String
  connected : Bool
deriving DecidableEq

/-- First-match association-list lookup (the object-map reads
`clientsRef.current[id]` / `watchdogTimersRef.current[id]`). -/
def alookup {β : Type} : List (String × β) → String → Option β
  | [], _ => none
  | (k, v) :: tl, d => if k = d then some v else alookup tl d

def mkClientInfo (d : Device) : ClientInfo :=
  { broker := d.broker, user := d.user, pass := d.pass, connected := false }

/-- The connection-reconciliation pass of the effect (lines 98-116 and
353-365) on the clients map: open a client for every desired device id
that has none, then end and delete every client whose id is no longer
desired.  Returns the new clients map, the ids opened, and the ids
closed. -/
def reconcileConnections (clients : List (String × ClientInfo)) (devs : List Device) :
    List (String × ClientInfo) × List String × List String :=
  let p := devs.foldl
    (fun acc d =>
      if (alookup acc.1 d.device_id).isSome then acc
      else (acc.1 ++ [(d.device_id, mkClientInfo d)], acc.2 ++ [d.device_id]))
    ((clients, []) : List (String × ClientInfo) × List String)
  let desired := devs.map (fun d => d.device_id)
  let closed := (p.1.filter (fun q => !desired.contains q.1)).map (fun q => q.1)
  let remaining := p.1.filter (fun q => desired.contains q.1)
  (remaining, p.2, closed)

/-- The connection-key the effect recomputes from the desired set
(lines 57-59): id, broker, user and password of every device, sorted and
joined. -/
def insertSorted (x : String) : List String → List String
  | [] => [x]
  | y :: ys => if x ≤ y then x :: y :: ys else y :: insertSorted x ys

/-- The default lexicographic Array.prototype.sort, as insertion sort. -/
def sortStrings (l : List String) : List String := l.foldr insertSorted []

def connectionKey (devs : List Device) : String :=
  String.intercalate "||"
    (sortStrings (devs.map (fun d => d.device_id ++ "|" ++ d.broker ++ "|" ++ d.user ++ "|" ++ d.pass)))

/-- Global state of the supervisor/registry/reconciler: the clients map,
the watchdog timer map (the flag records whether the stored timer is
still pending, `false` once it has fired), and the canonical per-device
state map. -/
structure SysState where
  clients : List (String × ClientInfo)
  watchdogs : List (String × Bool)
  statuses : String → Option DeviceMqttState

def sysInit : SysState :=
  { clients := [], watchdogs := [], statuses := fun _ => none }

/-- stopWatchdog (lines 79-84): clear and delete the entry. -/
def wdRemove (wd : List (String × Bool)) (d : String) : List (String × Bool) :=
  wd.filter (fun p => p.1 != d)

/-- startWatchdog (lines 86-96): stop any existing timer, then store a
fresh pending one. -/
def wdArm (wd : List (String × Bool)) (d : String) : List (String × Bool) :=
  (d, true) :: wdRemove wd d

def setClientConnected (cs : List (String × ClientInfo)) (d : String) (b : Bool) :
    List (String × ClientInfo) :=
  cs.map (fun p => if p.1 == d then (p.1, { p.2 with connected := b }) else p)

/-- The effect's new-device branch (lines 101-116): store a fresh,
not-yet-connected client and set status connecting. -/
def stepAddDevice (s : SysState) (d : String) (ci : ClientInfo) : SysState :=
  { clients := (d, ci) :: s.clients
    watchdogs := s.watchdogs
    statuses := setDeviceStatus s.statuses d { status := some .connecting } }

/-- The connect handler (lines 132-139). -/
def stepConnect (s : SysState) (d : String) : SysState :=
  { clients := setClientConnected s.clients d true
    watchdogs := s.watchdogs
    statuses := setDeviceStatus s.statuses d
      { status := some .connecting
        errorMessage := some (some "Connected, waiting for data...") } }

/-- The subscribe-failure callback (lines 135-137). -/
def stepSubscribeErr (s : SysState) (d : String) (msg : String) : SysState :=
  { clients := s.clients
    watchdogs := s.watchdogs
    statuses := setDeviceStatus s.statuses d
      { status := some .error, errorMessage := some (some msg) } }

/-- One inbound message (lines 141-330): apply the handler's status
update when non-empty and its watchdog command. -/
def stepMessage (s : SysState) (d : String) (r : HandlerResult) : SysState :=
  { clients := s.clients
    watchdogs :=
      match r.wdCmd with
      | some .start => wdArm s.watchdogs d
      | some .stop => wdRemove s.watchdogs d
      | none => s.watchdogs
    statuses :=
      if r.statusUpdate = ({} : StatusUpdate) then s.statuses
      else setDeviceStatus s.statuses d r.statusUpdate }

/-- The error handler (lines 332-335). -/
def stepError (s : SysState) (d : String) (msg : String) : SysState :=
  { clients := s.clients
    watchdogs := wdRemove s.watchdogs d
    statuses := setDeviceStatus s.statuses d
      { status := some .error, errorMessage := some (some msg) } }

/-- The reconnect handler (lines 337-340); the transport is no longer
connected while a reconnect attempt is in flight. -/
def stepReconnect (s : SysState) (d : String) : SysState :=
  { clients := setClientConnected s.clients d false
    watchdogs := wdRemove s.watchdogs d
    statuses := setDeviceStatus s.statuses d { status := some .connecting } }

/-- The close handler (lines 342-345). -/
def stepClose (s : SysState) (d : String) : SysState :=
  { clients := setClientConnected s.clients d false
    watchdogs := wdRemove s.watchdogs d
    statuses := setDeviceStatus s.statuses d
      { status := some .offline, errorMessage := some (some "Connection closed.") } }

/-- The effect's removal branch (lines 353-365): end the client, stop the
watchdog, delete the device's state entry. -/
def stepRemoveDevice (s : SysState) (d : String) : SysState :=
  { clients := s.clients.filter (fun p => p.1 != d)
    watchdogs := wdRemove s.watchdogs d
    statuses := fun id => if id = d then none else s.statuses id }

/-- Watchdog expiry (lines 88-95): the timeout callback runs — the timer
is spent but its registry entry is not deleted — and the synthetic
offline transition is applied. -/
def stepExpire (s : SysState) (d : String) : SysState :=
  { clients := s.clients
    watchdogs := s.watchdogs.map (fun p => if p.1 == d then (p.1, false) else p)
    statuses := setDeviceStatus s.statuses d
      { status := some .offline
        errorMessage := some (some "Device timed out (no heartbeat).")
        ping := some none
        healthStatus := some none } }

/-- The event-level transition relation of the system.  Transport
callbacks fire only for devices that have a client; messages arrive only
over a connected transport; a watchdog can expire only while its timer is
still pending. -/
inductive SysStep : SysState → SysState → Prop where
  | addDevice (s : SysState) (d : String) (ci : ClientInfo)
      (hnew : alookup s.clients d = none) (hconn : ci.connected = false) :
      SysStep s (stepAddDevice s d ci)
  | connectEvt (s : SysState) (d : String) (ci : ClientInfo)
      (hc : alookup s.clients d = some ci) :
      SysStep s (stepConnect s d)
  | subscribeErr (s : SysState) (d : String) (ci : ClientInfo) (msg : String)
      (hc : alookup s.clients d = some ci) :
      SysStep s (stepSubscribeErr s d msg)
  | messageEvt (s : SysState) (d : String) (ci : ClientInfo)
      (jsonParse : Str → Option JsonLite) (dateParse : Str → Option Int)
      (topic raw : Str) (retained : Bool) (now : Int)
      (hc : alookup s.clients d = some ci) (hon : ci.connected = true) :
      SysStep s (stepMessage s d (handleMessage jsonParse dateParse topic raw retained now))
  | errorEvt (s : SysState) (d : String) (ci : ClientInfo) (msg : String)
      (hc : alookup s.clients d = some ci) :
      SysStep s (stepError s d msg)
  | reconnectEvt (s : SysState) (d : String) (ci : ClientInfo)
      (hc : alookup s.clients d = some ci) :
      SysStep s (stepReconnect s d)
  | closeEvt (s : SysState) (d : String) (ci : ClientInfo)
      (hc : alookup s.clients d = some ci) :
      SysStep s (stepClose s d)
  | removeDevice (s : SysState) (d : String) (ci : ClientInfo)
      (hc : alookup s.clients d = some ci) :
      SysStep s (stepRemoveDevice s d)
  | expire (s : SysState) (d : String)
      (hw : alookup s.watchdogs d = some true) :
      SysStep s (stepExpire s d)

/-- States reachable from the initial (no devices) state. -/
inductive SysReachable : SysState → Prop where
  | init : SysReachable sysInit
  | step {s s' : SysState} : SysReachable s → SysStep s s' → SysReachable s'

/-- The relationship that actually holds between the watchdog registry
and the connections: a registry entry (pending or spent) exists only for
a device whose client is present and connected. -/
def WdInv (s : SysState) : Prop :=
  ∀ d, (alookup s.watchdogs d).isSome = true →
    ∃ ci, alookup s.clients d = some ci ∧ ci.connected = true

/-! ## Concrete inputs used by the claim theorems and their witnesses -/

def c7oldDev : Device :=
  { device_id := "dev1", broker := "brokerA", port := 8884, user := "userA",
    pass := "passA", pair_token := "tok", custom_name := "Device One" }

def c7newDev : Device :=
  { device_id := "dev1", broker := "brokerB", port := 8884, user := "userA",
    pass := "passA", pair_token := "tok", custom_name := "Device One" }

def c7oldClient : ClientInfo :=
  { broker := "brokerA", user := "userA", pass := "passA", connected := true }

def c9st : String → Option DeviceMqttState :=
  fun id => if id = "dev1" then some defaultDeviceState else none

def c1e1 : ResetHistoryEntry :=
  { id := "Tdev1", deviceId := "dev1", deviceName := "dev1", timestamp := "T",
    eventType := "Reboot Completed" }

/-- A full history log of 100 pairwise distinct entries. -/
def c1full : List ResetHistoryEntry :=
  (List.range 100).map (fun i =>
    { id := toString i, deviceId := "dev1", deviceName := "n",
      timestamp := toString i, eventType := "E" })

/-- A freshly added, not yet connected client. -/
def c6ci : ClientInfo := { broker := "broker.example", user := "u", pass := "p", connected := false }

/-- State after the desired set gains device dev1: client stored, status
connecting, no watchdog. -/
def c6s1 : SysState := stepAddDevice sysInit "dev1" c6ci

/-- State after the transport-connect callback: the connection is active,
still no watchdog. -/
def c6s2 : SysState := stepConnect c6s1 "dev1"

/-- A health-ping message for dev1, which arms the watchdog. -/
def c6msg : HandlerResult :=
  handleMessage jpNone dpNone "dev1/health/status".data "42".data false 0

def c6s3 : SysState := stepMessage c6s2 "dev1" c6msg

/-- State after the armed watchdog expires. -/
def c6s4 : SysState := stepExpire c6s3 "dev1"

/-! ## Helper lemmas -/

/-- The topic-specific reducers never touch lastAction or
lastActionTime; only the apply-detected-actions block does. -/
theorem reduceTopicPhase_no_action_fields (topic raw : Str) (retained : Bool) (now : Int)
    (payload : Str) (et : Option Int) (c : ClassifyResult) :
    (reduceTopicPhase topic raw retained now payload et c).1.lastAction = none ∧
    (reduceTopicPhase topic raw retained now payload et c).1.lastActionTime = none := by
  constructor <;>
    (unfold reduceTopicPhase; dsimp only; repeat' split) <;> rfl

/-- The topic-specific reducers emit only onDeviceSeen and
onSchedulesCleared callbacks. -/
theorem reduceTopicPhase_emits_benign (topic raw : Str) (retained : Bool) (now : Int)
    (payload : Str) (et : Option Int) (c : ClassifyResult) :
    ∀ x ∈ (reduceTopicPhase topic raw retained now payload et c).2.1,
      (∃ t, x = Emit.seen t) ∨ x = Emit.schedulesCleared := by
  intro x hx
  unfold reduceTopicPhase at hx
  dsimp only at hx
  repeat' split at hx
  all_goals simp_all
  all_goals
    rcases hx with rfl | rfl
    · exact Or.inl ⟨_, rfl⟩
    · exact Or.inr rfl

/-- Dropping the action when no event time exists, and the action-block
effects when one does, for an arbitrary output of the topic phase. -/
theorem applyActions_spec (c : ClassifyResult) (et : Option Int)
    (x : StatusUpdate × List Emit × Option WdCmd)
    (h1 : x.1.lastAction = none) (h2 : x.1.lastActionTime = none)
    (hb : ∀ y ∈ x.2.1, (∃ t, y = Emit.seen t) ∨ y = Emit.schedulesCleared) :
    (c.detectedActionType ≠ [] → et = none →
       (∀ l t, Emit.event l t ∉ (applyActions c et x).2.1) ∧
       (∀ a t, Emit.action a t ∉ (applyActions c et x).2.1) ∧
       (applyActions c et x).1.lastAction = none ∧
       (applyActions c et x).1.lastActionTime = none ∧
       (∀ prev, (mergeState prev (applyActions c et x).1).lastAction = prev.lastAction ∧
                (mergeState prev (applyActions c et x).1).lastActionTime = prev.lastActionTime)) ∧
    (∀ t, c.detectedActionType ≠ [] → et = some t →
       Emit.event c.detectedEventType t ∈ (applyActions c et x).2.1 ∧
       Emit.action c.detectedActionType t ∈ (applyActions c et x).2.1 ∧
       (applyActions c et x).1.lastAction = some c.detectedActionType ∧
       (applyActions c et x).1.lastActionTime = some t ∧
       (∀ prev, (mergeState prev (applyActions c et x).1).lastAction = some c.detectedActionType ∧
                (mergeState prev (applyActions c et x).1).lastActionTime = some t)) := by
  constructor
  · intro _ he
    subst he
    have hid : applyActions c none x = x := by
      unfold applyActions
      split
      · rfl
      · rfl
    rw [hid]
    refine ⟨?_, ?_, h1, h2, ?_⟩
    · intro l t hmem
      rcases hb _ hmem with ⟨t', h⟩ | h <;> simp at h
    · intro a t hmem
      rcases hb _ hmem with ⟨t', h⟩ | h <;> simp at h
    · intro prev
      constructor
      · simp [mergeState, h1]
      · simp [mergeState, h2]
  · intro t hd he
    subst he
    have hne : c.detectedActionType.isEmpty = false := by
      cases h' : c.detectedActionType with
      | nil => exact absurd h' hd
      | cons a l => rfl
    have hg : (!c.detectedActionType.isEmpty) = true := by simp [hne]
    have hact : (applyActions c (some t) x).1.lastAction = some c.detectedActionType := by
      unfold applyActions
      rw [if_pos hg]
      dsimp only
      repeat' split
      all_goals rfl
    have hactT : (applyActions c (some t) x).1.lastActionTime = some t := by
      unfold applyActions
      rw [if_pos hg]
      dsimp only
      repeat' split
      all_goals rfl
    have hemits : (applyActions c (some t) x).2.1
        = x.2.1 ++ ([Emit.event c.detectedEventType t, Emit.action c.detectedActionType t]
            ++ (if c.isRebootEvent && c.isHeartbeatTopic then [Emit.seen t] else [])) := by
      unfold applyActions
      rw [if_pos hg]
    refine ⟨?_, ?_, hact, hactT, ?_⟩
    · rw [hemits]; simp
    · rw [hemits]; simp
    · intro prev
      constructor
      · simp [mergeState, hact]
      · simp [mergeState, hactT]

/-! ## Helper lemmas for the association-list registries -/

theorem alookup_filterNe {β : Type} (l : List (String × β)) (d x : String) :
    alookup (l.filter (fun p => p.1 != d)) x = if x = d then none else alookup l x := by
  induction l with
  | nil => simp [alookup]
  | cons p tl ih =>
    obtain ⟨k, v⟩ := p
    by_cases hk : k = d
    · subst hk
      rw [List.filter_cons, if_neg (by simp), ih]
      by_cases hx : x = k
      · simp [hx]
      · simp [alookup, hx, Ne.symm hx]
    · rw [List.filter_cons, if_pos (by simpa [bne_iff_ne] using hk)]
      by_cases hkx : k = x
      · subst hkx
        simp [alookup, hk]
      · simp only [alookup, if_neg hkx]
        rw [ih]

theorem alookup_wdRemove (wd : List (String × Bool)) (d x : String) :
    alookup (wdRemove wd d) x = if x = d then none else alookup wd x :=
  alookup_filterNe wd d x

theorem alookup_wdArm (wd : List (String × Bool)) (d x : String) :
    alookup (wdArm wd d) x = if x = d then some true else alookup wd x := by
  unfold wdArm
  by_cases hx : x = d
  · subst hx
    simp [alookup]
  · simp only [alookup, if_neg (Ne.symm hx), if_neg hx]
    rw [alookup_wdRemove, if_neg hx]

theorem alookup_setClientConnected (cs : List (String × ClientInfo)) (d : String) (b : Bool)
    (x : String) :
    alookup (setClientConnected cs d b) x =
      if x = d then (alookup cs x).map (fun ci => { ci with connected := b })
      else alookup cs x := by
  induction cs with
  | nil => simp [setClientConnected, alookup]
  | cons p tl ih =>
    obtain ⟨k, v⟩ := p
    have hrec : alookup (setClientConnected tl d b) x =
        if x = d then (alookup tl x).map (fun ci => { ci with connected := b })
        else alookup tl x := ih
    by_cases hk : k = d
    · subst hk
      rw [setClientConnected, List.map_cons, if_pos (by simp)]
      by_cases hkx : k = x
      · subst hkx
        simp [alookup, setClientConnected]
      · simp only [alookup, if_neg hkx]
        rw [show (setClientConnected tl k b : List (String × ClientInfo))
              = List.map (fun p => if p.1 == k then (p.1, { p.2 with connected := b }) else p) tl
            from rfl] at hrec
        rw [hrec, if_neg (Ne.symm hkx)]
    · rw [setClientConnected, List.map_cons,
        if_neg (by simpa [beq_eq_false_iff_ne, Bool.not_eq_true] using hk)]
      by_cases hkx : k = x
      · subst hkx
        simp [alookup, hk]
      · simp only [alookup, if_neg hkx]
        rw [show (setClientConnected tl d b : List (String × ClientInfo))
              = List.map (fun p => if p.1 == d then (p.1, { p.2 with connected := b }) else p) tl
            from rfl] at hrec
        rw [hrec]

theorem alookup_markFired (wd : List (String × Bool)) (d x : String) :
    alookup (wd.map (fun p => if p.1 == d then (p.1, false) else p)) x =
      if x = d then (alookup wd x).map (fun _ => false) else alookup wd x := by
  induction wd with
  | nil => simp [alookup]
  | cons p tl ih =>
    obtain ⟨k, v⟩ := p
    rw [List.map_cons]
    by_cases hk : k = d
    · subst hk
      rw [if_pos (by simp)]
      by_cases hkx : k = x
      · subst hkx
        simp [alookup]
      · simp only [alookup, if_neg hkx]
        rw [ih, if_neg (Ne.symm hkx)]
    · rw [if_neg (by simpa [beq_eq_false_iff_ne, Bool.not_eq_true] using hk)]
      by_cases hkx : k = x
      · subst hkx
        simp [alookup, hk]
      · simp only [alookup, if_neg hkx]
        rw [ih]

/-- Every event of the system preserves the watchdog-clients
relationship. -/
theorem wdInv_step {s s' : SysState} (hst : SysStep s s') (ih : WdInv s) : WdInv s' := by
  cases hst with
  | addDevice d ci hnew hconn =>
    intro x hx
    rcases ih x hx with ⟨ci', hci', hcon⟩
    refine ⟨ci', ?_, hcon⟩
    show (if d = x then some ci else alookup s.clients x) = some ci'
    by_cases hdx : d = x
    · subst hdx
      rw [hnew] at hci'
      exact Option.noConfusion hci'
    · rw [if_neg hdx]
      exact hci'
  | connectEvt d ci hc =>
    intro x hx
    rcases ih x hx with ⟨ci', hci', hcon⟩
    simp only [stepConnect, alookup_setClientConnected]
    by_cases hxd : x = d
    · rw [if_pos hxd, hci']
      exact ⟨{ ci' with connected := true }, rfl, rfl⟩
    · rw [if_neg hxd]
      exact ⟨ci', hci', hcon⟩
  | subscribeErr d ci msg hc =>
    exact ih
  | messageEvt d ci jp dp topic raw retained now hc hon =>
    intro x hx
    simp only [stepMessage] at hx
    cases hcmd : (handleMessage jp dp topic raw retained now).wdCmd with
    | none =>
      rw [hcmd] at hx
      exact ih x hx
    | some cmd =>
      cases cmd with
      | start =>
        rw [hcmd] at hx
        simp only [alookup_wdArm] at hx
        by_cases hxd : x = d
        · subst hxd
          exact ⟨ci, hc, hon⟩
        · rw [if_neg hxd] at hx
          exact ih x hx
      | stop =>
        rw [hcmd] at hx
        simp only [wdRemove, alookup_filterNe] at hx
        by_cases hxd : x = d
        · rw [if_pos hxd] at hx
          exact absurd hx (by simp)
        · rw [if_neg hxd] at hx
          exact ih x hx
  | errorEvt d ci msg hc =>
    intro x hx
    simp only [stepError, wdRemove, alookup_filterNe] at hx
    by_cases hxd : x = d
    · rw [if_pos hxd] at hx
      exact absurd hx (by simp)
    · rw [if_neg hxd] at hx
      exact ih x hx
  | reconnectEvt d ci hc =>
    intro x hx
    simp only [stepReconnect, wdRemove, alookup_filterNe] at hx
    by_cases hxd : x = d
    · rw [if_pos hxd] at hx
      exact absurd hx (by simp)
    · rw [if_neg hxd] at hx
      rcases ih x hx with ⟨ci', hci', hcon⟩
      refine ⟨ci', ?_, hcon⟩
      simp only [stepReconnect, alookup_setClientConnected, if_neg hxd]
      exact hci'
  | closeEvt d ci hc =>
    intro x hx
    simp only [stepClose, wdRemove, alookup_filterNe] at hx
    by_cases hxd : x = d
    · rw [if_pos hxd] at hx
      exact absurd hx (by simp)
    · rw [if_neg hxd] at hx
      rcases ih x hx with ⟨ci', hci', hcon⟩
      refine ⟨ci', ?_, hcon⟩
      simp only [stepClose, alookup_setClientConnected, if_neg hxd]
      exact hci'
  | removeDevice d ci hc =>
    intro x hx
    simp only [stepRemoveDevice, wdRemove, alookup_filterNe] at hx
    by_cases hxd : x = d
    · rw [if_pos hxd] at hx
      exact absurd hx (by simp)
    · rw [if_neg hxd] at hx
      rcases ih x hx with ⟨ci', hci', hcon⟩
      refine ⟨ci', ?_, hcon⟩
      simp only [stepRemoveDevice, alookup_filterNe, if_neg hxd]
      exact hci'
  | expire d hw =>
    intro x hx
    simp only [stepExpire, alookup_markFired] at hx
    by_cases hxd : x = d
    · rw [if_pos hxd] at hx
      rcases hmem : alookup s.watchdogs x with _ | b
      · rw [hmem] at hx
        exact absurd hx (by simp)
      · exact ih x (by simp [hmem])
    · rw [if_neg hxd] at hx
      exact ih x hx

theorem wdInv_reachable : ∀ s, SysReachable s → WdInv s := by
  intro s h
  induction h with
  | init =>
    intro d hd
    simp [sysInit, alookup] at hd
  | step hr hs ih => exact wdInv_step hs ih

theorem c6_reach1 : SysReachable c6s1 :=
  SysReachable.step SysReachable.init (SysStep.addDevice sysInit "dev1" c6ci rfl rfl)

theorem c6_reach2 : SysReachable c6s2 :=
  SysReachable.step c6_reach1 (SysStep.connectEvt c6s1 "dev1" c6ci (by decide))

theorem c6_reach3 : SysReachable c6s3 :=
  SysReachable.step c6_reach2
    (SysStep.messageEvt c6s2 "dev1" { c6ci with connected := true } jpNone dpNone
      "dev1/health/status".data "42".data false 0 (by decide) rfl)

theorem c6_reach4 : SysReachable c6s4 :=
  SysReachable.step c6_reach3 (SysStep.expire c6s3 "dev1" (by decide))

/-! ## Helper lemmas for the history sink -/

theorem matchesTuple_iff (d ts et : String) (e : ResetHistoryEntry) :
    matchesTuple d ts et e = true ↔ histTuple e = (d, ts, et) := by
  simp [matchesTuple, histTuple, Prod.ext_iff, and_assoc]

theorem handleDeviceEvent_length_le (devices : List Device) (h : List ResetHistoryEntry)
    (d et ts : String) (hl : h.length ≤ 100) :
    (handleDeviceEvent devices h d et ts).length ≤ 100 := by
  unfold handleDeviceEvent
  split
  · exact hl
  · exact List.length_take_le 100 _

theorem handleDeviceEvent_nodup (devices : List Device) (h : List ResetHistoryEntry)
    (d et ts : String) (hn : (h.map histTuple).Nodup) :
    ((handleDeviceEvent devices h d et ts).map histTuple).Nodup := by
  unfold handleDeviceEvent
  split
  · exact hn
  · rename_i hna
    have hnotin : (d, ts, et) ∉ h.map histTuple := by
      intro hmem
      rcases List.mem_map.mp hmem with ⟨e, he, hte⟩
      exact hna (List.any_eq_true.mpr ⟨e, he, (matchesTuple_iff d ts et e).mpr hte⟩)
    have hhead : histTuple (mkHistEntry devices d et ts) = (d, ts, et) := rfl
    have hcons : ((mkHistEntry devices d et ts :: h).map histTuple).Nodup := by
      simp only [List.map_cons]
      exact List.nodup_cons.mpr ⟨by rw [hhead]; exact hnotin, hn⟩
    rw [List.map_take]
    exact List.Nodup.sublist (List.take_sublist _ _) hcons

/-! ## Claim theorems -/

/-- C4: the payload "reset_done|1764448611" on a topic ending in
/last_reset classifies as action Reboot with event label
"Reboot Completed", and the event time is 1764448611 read as seconds,
i.e. 1764448611000 ms since epoch. -/
theorem reset_done_classifies_reboot_completed
    (jp : Str → Option JsonLite) (dp : Str → Option Int) (retained : Bool) (now : Int) :
    (handleMessage jp dp "dev1/last_reset".data "reset_done|1764448611".data retained now).cls.detectedActionType = "Reboot".data ∧
    (handleMessage jp dp "dev1/last_reset".data "reset_done|1764448611".data retained now).cls.detectedEventType = "Reboot Completed".data ∧
    (handleMessage jp dp "dev1/last_reset".data "reset_done|1764448611".data retained now).norm.timestampVal = some 1764448611 ∧
    (handleMessage jp dp "dev1/last_reset".data "reset_done|1764448611".data retained now).eventTime = some 1764448611000 :=
  ⟨rfl, rfl, rfl, rfl⟩

set_option maxHeartbeats 2000000 in
/-- C5: the non-retained payload "off" on the device's /status topic is
classified as the Power Off action (isPoweredOff set true by the action
reducer), while the heartbeat-class status reducer leaves the status
field — and every other liveness field — untouched, because "off" is
neither an online/reboot keyword nor an offline/disconnected keyword. -/
theorem off_payload_only_action_reducer_fires
    (jp : Str → Option JsonLite) (dp : Str → Option Int) (now : Int) :
    (handleMessage jp dp "dev1/status".data "off".data false now).cls.detectedActionType = "Power Off".data ∧
    (handleMessage jp dp "dev1/status".data "off".data false now).statusUpdate.isPoweredOff = some true ∧
    (handleMessage jp dp "dev1/status".data "off".data false now).cls.hasOnline = false ∧
    (handleMessage jp dp "dev1/status".data "off".data false now).cls.isOnlineSignal = false ∧
    containsSub (handleMessage jp dp "dev1/status".data "off".data false now).norm.payload "offline".data = false ∧
    ((handleMessage jp dp "dev1/status".data "off".data false now).norm.payload == "disconnected".data) = false ∧
    (handleMessage jp dp "dev1/status".data "off".data false now).statusUpdate.status = none ∧
    (handleMessage jp dp "dev1/status".data "off".data false now).statusUpdate.errorMessage = none ∧
    (handleMessage jp dp "dev1/status".data "off".data false now).statusUpdate.lastSeen = none ∧
    (handleMessage jp dp "dev1/status".data "off".data false now).statusUpdate.ping = none ∧
    (handleMessage jp dp "dev1/status".data "off".data false now).statusUpdate.healthStatus = none ∧
    (handleMessage jp dp "dev1/status".data "off".data false now).statusUpdate.lastAction = some "Power Off".data ∧
    (handleMessage jp dp "dev1/status".data "off".data false now).statusUpdate.lastActionTime = some now ∧
    (∀ prev, (mergeState prev (handleMessage jp dp "dev1/status".data "off".data false now).statusUpdate).status = prev.status) :=
  ⟨rfl, rfl, rfl, rfl, rfl, rfl, rfl, rfl, rfl, rfl, rfl, rfl, rfl, fun _ => rfl⟩

/-- C10: a history entry's id is the ISO timestamp string concatenated
with the device id, with the event type not contributing; every entry in
any history log produced from event notifications has this id shape, and
two admitted entries sharing deviceId and timestamp but differing in
eventType carry identical ids. -/
theorem history_id_omits_event_type :
    (∀ devices deviceId eventType isoTimestamp,
        (mkHistEntry devices deviceId eventType isoTimestamp).id = isoTimestamp ++ deviceId) ∧
    (∀ devices deviceId eventType eventType' isoTimestamp,
        (mkHistEntry devices deviceId eventType isoTimestamp).id
          = (mkHistEntry devices deviceId eventType' isoTimestamp).id) ∧
    (∀ devices evs e, e ∈ runHistory devices evs → e.id = e.timestamp ++ e.deviceId) ∧
    (∃ e1 e2,
        runHistory [] [⟨"dev1", "Reboot Completed", "T"⟩, ⟨"dev1", "Powered off", "T"⟩] = [e2, e1] ∧
        e1.id = e2.id ∧ e1.eventType ≠ e2.eventType ∧
        e1.deviceId = e2.deviceId ∧ e1.timestamp = e2.timestamp) := by
  refine ⟨fun _ _ _ _ => rfl, fun _ _ _ _ _ => rfl, ?_, ?_⟩
  · intro devices evs
    have key : ∀ (h : List ResetHistoryEntry),
        (∀ e ∈ h, e.id = e.timestamp ++ e.deviceId) →
        ∀ e ∈ evs.foldl (fun h ev => handleDeviceEvent devices h ev.deviceId ev.eventType ev.isoTimestamp) h,
          e.id = e.timestamp ++ e.deviceId := by
      induction evs with
      | nil => intro h hh; exact hh
      | cons ev tl ih =>
        intro h hh
        refine ih _ ?_
        intro e he
        change e ∈ handleDeviceEvent devices h ev.deviceId ev.eventType ev.isoTimestamp at he
        unfold handleDeviceEvent at he
        by_cases hdup : h.any (matchesTuple ev.deviceId ev.isoTimestamp ev.eventType) = true
        · rw [if_pos hdup] at he; exact hh e he
        · rw [if_neg hdup] at he
          have := List.mem_of_mem_take he
          rcases List.mem_cons.mp this with heq | hmem
          · subst heq; rfl
          · exact hh e hmem
    exact key [] (by intro e he; cases he)
  · exact ⟨{ id := "Tdev1", deviceId := "dev1", deviceName := "dev1", timestamp := "T",
             eventType := "Reboot Completed" },
           { id := "Tdev1", deviceId := "dev1", deviceName := "dev1", timestamp := "T",
             eventType := "Powered off" },
           by decide, rfl, by decide, rfl, rfl⟩

/-- C7 (evaluation at the failing input): when a device keeps its id but
changes its broker, the reconnection effect re-runs — the connection key
differs — yet the reconciliation pass neither closes the old connection
nor opens a new one: the client map is returned unchanged, still holding
the client opened against the old broker. -/
theorem credential_change_leaves_connection_untouched :
    connectionKey [c7oldDev] ≠ connectionKey [c7newDev] ∧
    reconcileConnections [("dev1", c7oldClient)] [c7newDev]
      = ([("dev1", c7oldClient)], [], []) ∧
    alookup (reconcileConnections [("dev1", c7oldClient)] [c7newDev]).1 "dev1"
      = some c7oldClient ∧
    c7oldClient.broker ≠ c7newDev.broker := by
  refine ⟨by decide, by decide, by decide, by decide⟩

/-- C8 (counterexample): the derived event time is not a function of the
(topic, payload, retained) triple alone — the same non-retained "off"
status message received at wall-clock 0 and at wall-clock 1000 yields two
different event times. -/
theorem event_time_depends_on_receipt_clock :
    (handleMessage jpNone dpNone "dev1/status".data "off".data false 0).eventTime ≠
    (handleMessage jpNone dpNone "dev1/status".data "off".data false 1000).eventTime := by
  decide

/-- C8 (amended): the normalization/classification pipeline is pure and
deterministic given the receipt wall-clock time: the same
(topic, payload, retained, receipt time) yields the same full result, and
the normalized signal and the classification — everything except the
event time — do not depend on the receipt time at all. -/
theorem pipeline_pure_given_receipt_time
    (jp : Str → Option JsonLite) (dp : Str → Option Int)
    (topic raw : Str) (retained : Bool) (n1 n2 : Int) :
    (n1 = n2 →
      handleMessage jp dp topic raw retained n1 = handleMessage jp dp topic raw retained n2) ∧
    (handleMessage jp dp topic raw retained n1).norm
      = (handleMessage jp dp topic raw retained n2).norm ∧
    (handleMessage jp dp topic raw retained n1).cls
      = (handleMessage jp dp topic raw retained n2).cls :=
  ⟨fun h => by rw [h], rfl, rfl⟩

theorem pipeline_pure_given_receipt_time_witness :
    (handleMessage jpNone dpNone "dev1/status".data "off".data false 0
      = handleMessage jpNone dpNone "dev1/status".data "off".data false 0) ∧
    (handleMessage jpNone dpNone "dev1/status".data "off".data false 0).norm
      = (handleMessage jpNone dpNone "dev1/status".data "off".data false 0).norm ∧
    (handleMessage jpNone dpNone "dev1/status".data "off".data false 0).cls
      = (handleMessage jpNone dpNone "dev1/status".data "off".data false 0).cls :=
  ⟨(pipeline_pure_given_receipt_time jpNone dpNone "dev1/status".data "off".data false 0 0).1 rfl,
   (pipeline_pure_given_receipt_time jpNone dpNone "dev1/status".data "off".data false 0 0).2⟩

/-- C1: for every sequence of event notifications the resulting history
log has pairwise distinct (deviceId, timestamp, eventType) tuples and at
most 100 entries; a notification whose tuple is already present leaves
the log unchanged; a processed notification's tuple is present in the
resulting log; and a fresh notification arriving at a full log of 100
entries prepends the new entry and drops exactly the last — oldest —
entry. -/
theorem history_dedup_and_cap :
    (∀ devices evs, ((runHistory devices evs).map histTuple).Nodup) ∧
    (∀ devices evs, (runHistory devices evs).length ≤ 100) ∧
    (∀ devices h d et ts, (∃ e ∈ h, histTuple e = (d, ts, et)) →
        handleDeviceEvent devices h d et ts = h) ∧
    (∀ devices h d et ts, ∃ e ∈ handleDeviceEvent devices h d et ts,
        histTuple e = (d, ts, et)) ∧
    (∀ devices h d et ts, h.length = 100 → (∀ e ∈ h, histTuple e ≠ (d, ts, et)) →
        handleDeviceEvent devices h d et ts = mkHistEntry devices d et ts :: h.dropLast) := by
  have h100 : (100 : Nat) = 99 + 1 := by norm_num
  refine ⟨?_, ?_, ?_, ?_, ?_⟩
  · intro devices evs
    have key : ∀ (h : List ResetHistoryEntry), (h.map histTuple).Nodup →
        ((evs.foldl (fun h ev =>
            handleDeviceEvent devices h ev.deviceId ev.eventType ev.isoTimestamp) h).map
          histTuple).Nodup := by
      induction evs with
      | nil => intro h hh; exact hh
      | cons ev tl ih =>
        intro h hh
        exact ih _ (handleDeviceEvent_nodup devices h ev.deviceId ev.eventType ev.isoTimestamp hh)
    exact key [] (by simp)
  · intro devices evs
    have key : ∀ (h : List ResetHistoryEntry), h.length ≤ 100 →
        (evs.foldl (fun h ev =>
            handleDeviceEvent devices h ev.deviceId ev.eventType ev.isoTimestamp) h).length
          ≤ 100 := by
      induction evs with
      | nil => intro h hh; exact hh
      | cons ev tl ih =>
        intro h hh
        exact ih _ (handleDeviceEvent_length_le devices h ev.deviceId ev.eventType ev.isoTimestamp hh)
    exact key [] (by simp)
  · intro devices h d et ts hex
    unfold handleDeviceEvent
    split
    · rfl
    · rename_i hna
      rcases hex with ⟨e, he, hte⟩
      exact absurd (List.any_eq_true.mpr ⟨e, he, (matchesTuple_iff d ts et e).mpr hte⟩) hna
  · intro devices h d et ts
    unfold handleDeviceEvent
    split
    · rename_i hdup
      rcases List.any_eq_true.mp hdup with ⟨e, he, hm⟩
      exact ⟨e, he, (matchesTuple_iff d ts et e).mp hm⟩
    · refine ⟨mkHistEntry devices d et ts, ?_, rfl⟩
      rw [h100, List.take_succ_cons]
      exact List.mem_cons_self _ _
  · intro devices h d et ts hlen hall
    unfold handleDeviceEvent
    split
    · rename_i hdup
      rcases List.any_eq_true.mp hdup with ⟨e, he, hm⟩
      exact absurd ((matchesTuple_iff d ts et e).mp hm) (hall e he)
    · rw [h100, List.take_succ_cons, List.dropLast_eq_take, hlen]

theorem history_dedup_and_cap_witness :
    (∃ e ∈ [c1e1], histTuple e = ("dev1", "T", "Reboot Completed")) ∧
    handleDeviceEvent [] [c1e1] "dev1" "Reboot Completed" "T" = [c1e1] ∧
    c1full.length = 100 ∧
    (∀ e ∈ c1full, histTuple e ≠ ("dev1", "TS", "F")) ∧
    handleDeviceEvent [] c1full "dev1" "F" "TS"
      = mkHistEntry [] "dev1" "F" "TS" :: c1full.dropLast :=
  ⟨⟨c1e1, by decide, by decide⟩,
   history_dedup_and_cap.2.2.1 [] [c1e1] "dev1" "Reboot Completed" "T"
     ⟨c1e1, by decide, by decide⟩,
   by decide, by decide,
   history_dedup_and_cap.2.2.2.2 [] c1full "dev1" "F" "TS" (by decide) (by decide)⟩

/-- C2: when a discrete action is detected but no event time was derived
(a retained message without a recognizable timestamp), no event and no
action notification is emitted and lastAction/lastActionTime stay
untouched by the update; when an action is detected and an event time
exists, both notifications fire with that time and
lastAction/lastActionTime are set to the detected action and time. -/
theorem action_without_event_time_is_dropped
    (jp : Str → Option JsonLite) (dp : Str → Option Int)
    (topic raw : Str) (retained : Bool) (now : Int) :
    ((handleMessage jp dp topic raw retained now).cls.detectedActionType ≠ [] →
     (handleMessage jp dp topic raw retained now).eventTime = none →
       (∀ l t, Emit.event l t ∉ (handleMessage jp dp topic raw retained now).emits) ∧
       (∀ a t, Emit.action a t ∉ (handleMessage jp dp topic raw retained now).emits) ∧
       (handleMessage jp dp topic raw retained now).statusUpdate.lastAction = none ∧
       (handleMessage jp dp topic raw retained now).statusUpdate.lastActionTime = none ∧
       (∀ prev,
         (mergeState prev (handleMessage jp dp topic raw retained now).statusUpdate).lastAction
           = prev.lastAction ∧
         (mergeState prev (handleMessage jp dp topic raw retained now).statusUpdate).lastActionTime
           = prev.lastActionTime)) ∧
    (∀ t, (handleMessage jp dp topic raw retained now).cls.detectedActionType ≠ [] →
     (handleMessage jp dp topic raw retained now).eventTime = some t →
       Emit.event (handleMessage jp dp topic raw retained now).cls.detectedEventType t
         ∈ (handleMessage jp dp topic raw retained now).emits ∧
       Emit.action (handleMessage jp dp topic raw retained now).cls.detectedActionType t
         ∈ (handleMessage jp dp topic raw retained now).emits ∧
       (handleMessage jp dp topic raw retained now).statusUpdate.lastAction
         = some (handleMessage jp dp topic raw retained now).cls.detectedActionType ∧
       (handleMessage jp dp topic raw retained now).statusUpdate.lastActionTime = some t ∧
       (∀ prev,
         (mergeState prev (handleMessage jp dp topic raw retained now).statusUpdate).lastAction
           = some (handleMessage jp dp topic raw retained now).cls.detectedActionType ∧
         (mergeState prev (handleMessage jp dp topic raw retained now).statusUpdate).lastActionTime
           = some t)) :=
  applyActions_spec
    (classifyMessage topic (normalizeMessage jp dp raw).payload)
    (computeEventTime (normalizeMessage jp dp raw).timestampVal
      (normalizeMessage jp dp raw).uptimeVal retained now)
    (reduceTopicPhase topic raw retained now (normalizeMessage jp dp raw).payload
      (computeEventTime (normalizeMessage jp dp raw).timestampVal
        (normalizeMessage jp dp raw).uptimeVal retained now)
      (classifyMessage topic (normalizeMessage jp dp raw).payload))
    (reduceTopicPhase_no_action_fields topic raw retained now
      (normalizeMessage jp dp raw).payload
      (computeEventTime (normalizeMessage jp dp raw).timestampVal
        (normalizeMessage jp dp raw).uptimeVal retained now)
      (classifyMessage topic (normalizeMessage jp dp raw).payload)).1
    (reduceTopicPhase_no_action_fields topic raw retained now
      (normalizeMessage jp dp raw).payload
      (computeEventTime (normalizeMessage jp dp raw).timestampVal
        (normalizeMessage jp dp raw).uptimeVal retained now)
      (classifyMessage topic (normalizeMessage jp dp raw).payload)).2
    (reduceTopicPhase_emits_benign topic raw retained now
      (normalizeMessage jp dp raw).payload
      (computeEventTime (normalizeMessage jp dp raw).timestampVal
        (normalizeMessage jp dp raw).uptimeVal retained now)
      (classifyMessage topic (normalizeMessage jp dp raw).payload))

theorem action_without_event_time_is_dropped_witness :
    ((handleMessage jpNone dpNone "dev1/last_reset".data "reset_done".data true 0).cls.detectedActionType ≠ []) ∧
    ((handleMessage jpNone dpNone "dev1/last_reset".data "reset_done".data true 0).eventTime = none) ∧
    ((∀ l t, Emit.event l t ∉ (handleMessage jpNone dpNone "dev1/last_reset".data "reset_done".data true 0).emits) ∧
     (∀ a t, Emit.action a t ∉ (handleMessage jpNone dpNone "dev1/last_reset".data "reset_done".data true 0).emits) ∧
     (handleMessage jpNone dpNone "dev1/last_reset".data "reset_done".data true 0).statusUpdate.lastAction = none ∧
     (handleMessage jpNone dpNone "dev1/last_reset".data "reset_done".data true 0).statusUpdate.lastActionTime = none ∧
     (∀ prev,
       (mergeState prev (handleMessage jpNone dpNone "dev1/last_reset".data "reset_done".data true 0).statusUpdate).lastAction
         = prev.lastAction ∧
       (mergeState prev (handleMessage jpNone dpNone "dev1/last_reset".data "reset_done".data true 0).statusUpdate).lastActionTime
         = prev.lastActionTime)) ∧
    ((handleMessage jpNone dpNone "dev1/last_reset".data "reset_done|1764448611".data false 0).cls.detectedActionType ≠ []) ∧
    ((handleMessage jpNone dpNone "dev1/last_reset".data "reset_done|1764448611".data false 0).eventTime = some 1764448611000) ∧
    (Emit.event (handleMessage jpNone dpNone "dev1/last_reset".data "reset_done|1764448611".data false 0).cls.detectedEventType 1764448611000
       ∈ (handleMessage jpNone dpNone "dev1/last_reset".data "reset_done|1764448611".data false 0).emits ∧
     Emit.action (handleMessage jpNone dpNone "dev1/last_reset".data "reset_done|1764448611".data false 0).cls.detectedActionType 1764448611000
       ∈ (handleMessage jpNone dpNone "dev1/last_reset".data "reset_done|1764448611".data false 0).emits ∧
     (handleMessage jpNone dpNone "dev1/last_reset".data "reset_done|1764448611".data false 0).statusUpdate.lastAction
       = some (handleMessage jpNone dpNone "dev1/last_reset".data "reset_done|1764448611".data false 0).cls.detectedActionType ∧
     (handleMessage jpNone dpNone "dev1/last_reset".data "reset_done|1764448611".data false 0).statusUpdate.lastActionTime
       = some 1764448611000 ∧
     (∀ prev,
       (mergeState prev (handleMessage jpNone dpNone "dev1/last_reset".data "reset_done|1764448611".data false 0).statusUpdate).lastAction
         = some (handleMessage jpNone dpNone "dev1/last_reset".data "reset_done|1764448611".data false 0).cls.detectedActionType ∧
       (mergeState prev (handleMessage jpNone dpNone "dev1/last_reset".data "reset_done|1764448611".data false 0).statusUpdate).lastActionTime
         = some 1764448611000)) :=
  ⟨by decide, by decide,
   (action_without_event_time_is_dropped jpNone dpNone "dev1/last_reset".data
      "reset_done".data true 0).1 (by decide) (by decide),
   by decide, by decide,
   (action_without_event_time_is_dropped jpNone dpNone "dev1/last_reset".data
      "reset_done|1764448611".data false 0).2 1764448611000 (by decide) (by decide)⟩

/-- C6 (counterexample): the claimed iff fails in both directions the
code can exhibit — in the reachable state c6s2 the device's connection
is active (client present and connected) yet no watchdog entry exists
(none is created until a liveness-bearing message arrives), and in the
reachable state c6s4, reached by letting an armed watchdog expire, the
expired entry is still present in the registry (marked spent) instead of
having been removed. -/
theorem watchdog_not_iff_connected :
    SysReachable c6s2 ∧
    alookup c6s2.clients "dev1" = some { c6ci with connected := true } ∧
    alookup c6s2.watchdogs "dev1" = none ∧
    SysReachable c6s4 ∧
    alookup c6s4.watchdogs "dev1" = some false :=
  ⟨c6_reach2, by decide, by decide, c6_reach4, by decide⟩

/-- C6 (amended): a watchdog entry exists only for a device whose client
is present and connected — but not conversely: a connected device has no
entry until a liveness-bearing signal arms one.  On expiry the pending
timer is consumed (the entry remains in the registry, marked spent) and
the expiry drives the device's status to offline with errorMessage
"Device timed out (no heartbeat)." and ping and healthStatus cleared. -/
theorem watchdog_entry_implies_connected :
    (∀ s, SysReachable s → WdInv s) ∧
    (∀ s d, alookup s.watchdogs d = some true →
       (∀ st, (stepExpire s d).statuses d = some st →
          st.status = .offline ∧
          st.errorMessage = some "Device timed out (no heartbeat)." ∧
          st.ping = none ∧ st.healthStatus = none) ∧
       ((stepExpire s d).statuses d).isSome = true ∧
       alookup (stepExpire s d).watchdogs d = some false) := by
  refine ⟨wdInv_reachable, ?_⟩
  intro s d hw
  have h1 : (stepExpire s d).statuses d
      = some (mergeState ((s.statuses d).getD defaultDeviceState)
          { status := some .offline
            errorMessage := some (some "Device timed out (no heartbeat).")
            ping := some none
            healthStatus := some none }) := by
    simp [stepExpire, setDeviceStatus]
  refine ⟨?_, ?_, ?_⟩
  · intro st hst
    rw [h1] at hst
    injection hst with h2
    subst h2
    exact ⟨rfl, rfl, rfl, rfl⟩
  · rw [h1]
    rfl
  · simp only [stepExpire, alookup_markFired, if_pos rfl, hw]
    rfl

theorem watchdog_entry_implies_connected_witness :
    (SysReachable c6s3 ∧ (alookup c6s3.watchdogs "dev1").isSome = true ∧
      (∃ ci, alookup c6s3.clients "dev1" = some ci ∧ ci.connected = true)) ∧
    (alookup c6s3.watchdogs "dev1" = some true ∧
      alookup (stepExpire c6s3 "dev1").watchdogs "dev1" = some false) :=
  ⟨⟨c6_reach3, by decide,
    watchdog_entry_implies_connected.1 c6s3 c6_reach3 "dev1" (by decide)⟩,
   ⟨by decide,
    (watchdog_entry_implies_connected.2 c6s3 "dev1" (by decide)).2.2⟩⟩

/-- C3: whenever the pipeline extracts a numeric timestamp candidate, the
event time is the candidate taken as milliseconds when it exceeds
946684800000 and as seconds (multiplied by 1000) otherwise; in
particular the payload "1700000000" and the payload "1700000000000" both
yield event time 1700000000000 ms. -/
theorem timestamp_seconds_ms_disambiguation :
    (∀ (jp : Str → Option JsonLite) (dp : Str → Option Int) (topic raw : Str)
        (retained : Bool) (now : Int) (v : Int),
      (handleMessage jp dp topic raw retained now).norm.timestampVal = some v →
      (handleMessage jp dp topic raw retained now).eventTime
        = some (if v > 946684800000 then v else v * 1000)) ∧
    (handleMessage jpNone dpNone "dev1/events".data "1700000000".data false 0).eventTime
      = some 1700000000000 ∧
    (handleMessage jpNone dpNone "dev1/events".data "1700000000000".data false 0).eventTime
      = some 1700000000000 := by
  refine ⟨?_, by decide, by decide⟩
  intro jp dp topic raw retained now v h
  have hn : (normalizeMessage jp dp raw).timestampVal = some v := h
  show computeEventTime (normalizeMessage jp dp raw).timestampVal
    (normalizeMessage jp dp raw).uptimeVal retained now
    = some (if v > 946684800000 then v else v * 1000)
  rw [hn]
  rfl

/-- C9: a reducer-produced status update is applied as a merge into the
existing per-device state: the entry becomes exactly the field-wise merge
(every field absent from the update keeps its previous value, every
present field takes the updated value), and no other device's entry is
touched. -/
theorem reducer_update_is_field_merge
    (jp : Str → Option JsonLite) (dp : Str → Option Int)
    (topic raw : Str) (retained : Bool) (now : Int)
    (st : String → Option DeviceMqttState) (d : String) (prev : DeviceMqttState)
    (hprev : st d = some prev) :
    setDeviceStatus st d (handleMessage jp dp topic raw retained now).statusUpdate d
      = some (mergeState prev (handleMessage jp dp topic raw retained now).statusUpdate) ∧
    ((handleMessage jp dp topic raw retained now).statusUpdate.status = none →
      (mergeState prev (handleMessage jp dp topic raw retained now).statusUpdate).status = prev.status) ∧
    ((handleMessage jp dp topic raw retained now).statusUpdate.errorMessage = none →
      (mergeState prev (handleMessage jp dp topic raw retained now).statusUpdate).errorMessage = prev.errorMessage) ∧
    ((handleMessage jp dp topic raw retained now).statusUpdate.lastSeen = none →
      (mergeState prev (handleMessage jp dp topic raw retained now).statusUpdate).lastSeen = prev.lastSeen) ∧
    ((handleMessage jp dp topic raw retained now).statusUpdate.healthStatus = none →
      (mergeState prev (handleMessage jp dp topic raw retained now).statusUpdate).healthStatus = prev.healthStatus) ∧
    ((handleMessage jp dp topic raw retained now).statusUpdate.otaStatus = none →
      (mergeState prev (handleMessage jp dp topic raw retained now).statusUpdate).otaStatus = prev.otaStatus) ∧
    ((handleMessage jp dp topic raw retained now).statusUpdate.otaProgress = none →
      (mergeState prev (handleMessage jp dp topic raw retained now).statusUpdate).otaProgress = prev.otaProgress) ∧
    ((handleMessage jp dp topic raw retained now).statusUpdate.deviceVersion = none →
      (mergeState prev (handleMessage jp dp topic raw retained now).statusUpdate).deviceVersion = prev.deviceVersion) ∧
    ((handleMessage jp dp topic raw retained now).statusUpdate.ping = none →
      (mergeState prev (handleMessage jp dp topic raw retained now).statusUpdate).ping = prev.ping) ∧
    ((handleMessage jp dp topic raw retained now).statusUpdate.isPoweredOff = none →
      (mergeState prev (handleMessage jp dp topic raw retained now).statusUpdate).isPoweredOff = prev.isPoweredOff) ∧
    ((handleMessage jp dp topic raw retained now).statusUpdate.lastAction = none →
      (mergeState prev (handleMessage jp dp topic raw retained now).statusUpdate).lastAction = prev.lastAction) ∧
    ((handleMessage jp dp topic raw retained now).statusUpdate.lastActionTime = none →
      (mergeState prev (handleMessage jp dp topic raw retained now).statusUpdate).lastActionTime = prev.lastActionTime) ∧
    (∀ v, (handleMessage jp dp topic raw retained now).statusUpdate.status = some v →
      (mergeState prev (handleMessage jp dp topic raw retained now).statusUpdate).status = v) ∧
    (∀ v, (handleMessage jp dp topic raw retained now).statusUpdate.lastAction = some v →
      (mergeState prev (handleMessage jp dp topic raw retained now).statusUpdate).lastAction = some v) ∧
    (∀ d', d' ≠ d →
      setDeviceStatus st d (handleMessage jp dp topic raw retained now).statusUpdate d' = st d') := by
  generalize (handleMessage jp dp topic raw retained now).statusUpdate = u
  refine ⟨?_, ?_, ?_, ?_, ?_, ?_, ?_, ?_, ?_, ?_, ?_, ?_, ?_, ?_, ?_⟩
  · simp [setDeviceStatus, hprev]
  · intro h; simp [mergeState, h]
  · intro h; simp [mergeState, h]
  · intro h; simp [mergeState, h]
  · intro h; simp [mergeState, h]
  · intro h; simp [mergeState, h]
  · intro h; simp [mergeState, h]
  · intro h; simp [mergeState, h]
  · intro h; simp [mergeState, h]
  · intro h; simp [mergeState, h]
  · intro h; simp [mergeState, h]
  · intro h; simp [mergeState, h]
  · intro v h; simp [mergeState, h]
  · intro v h; simp [mergeState, h]
  · intro d' hne; simp [setDeviceStatus, hne]

theorem reducer_update_is_field_merge_witness :
    c9st "dev1" = some defaultDeviceState ∧
    (setDeviceStatus c9st "dev1"
        (handleMessage jpNone dpNone "dev1/ota/status".data "flashing".data false 0).statusUpdate "dev1"
      = some (mergeState defaultDeviceState
          (handleMessage jpNone dpNone "dev1/ota/status".data "flashing".data false 0).statusUpdate)) ∧
    ((handleMessage jpNone dpNone "dev1/ota/status".data "flashing".data false 0).statusUpdate.status = none →
      (mergeState defaultDeviceState
        (handleMessage jpNone dpNone "dev1/ota/status".data "flashing".data false 0).statusUpdate).status
        = defaultDeviceState.status) :=
  ⟨by decide,
   (reducer_update_is_field_merge jpNone dpNone "dev1/ota/status".data "flashing".data false 0
      c9st "dev1" defaultDeviceState (by decide)).1,
   (reducer_update_is_field_merge jpNone dpNone "dev1/ota/status".data "flashing".data false 0
      c9st "dev1" defaultDeviceState (by decide)).2.1⟩

theorem timestamp_seconds_ms_disambiguation_witness :
    (handleMessage jpNone dpNone "dev1/events".data "1700000000".data false 0).norm.timestampVal
      = some 1700000000 ∧
    (handleMessage jpNone dpNone "dev1/events".data "1700000000".data false 0).eventTime
      = some (if (1700000000 : Int) > 946684800000 then 1700000000 else 1700000000 * 1000) :=
  ⟨by decide,
   timestamp_seconds_ms_disambiguation.1 jpNone dpNone "dev1/events".data "1700000000".data
     false 0 1700000000 (by decide)⟩

end Rebooter
